import Mathlib

/-!
Verification of `eolearn/io/local_io.py` (classes `ExportToTiff` and
`ReadFromTiff`) against its natural-language specification.

The Python module is shallowly embedded below.  Python `datetime` values are
modelled by their ordinal as an integer (only their linear order matters to
the code).  `numpy` arrays of rank 4 are modelled as nested lists indexed
`(time, height, width, band)`; the shape-level behaviour of `execute` is
modelled by functions on shape lists.  Python exceptions (`ValueError`,
`IndexError`, errors from `rasterio`/`pyproj`) are modelled with
`Except String`.
-/

set_option autoImplicit false

namespace LocalIO

/-- A Python scalar value as it may appear inside a `band_indices` /
`date_indices` container.  `pyDt` is a `datetime.datetime` modelled by its
ordinal.  `pyFloat`/`pyNone` stand for any further value whose exact content
never influences control flow. -/
inductive PyVal where
  | pyInt (i : ℤ)
  | pyStr (s : String)
  | pyDt (d : ℤ)
  | pyFloat
  | pyNone
deriving DecidableEq, Repr

/-- A selector argument (`band_indices` or `date_indices`): a Python `list`,
a Python `tuple` (of any arity), or any other object (`otherVal`). -/
inductive Selector where
  | pyList (xs : List PyVal)
  | pyTuple (xs : List PyVal)
  | otherVal
deriving DecidableEq, Repr

/-- `isinstance(x, int)` (lines 59 and 77). -/
def isInt : PyVal → Bool
  | .pyInt _ => true
  | _ => false

/-- The integer payload of a `PyVal` (meaningful when `isInt` holds). -/
def toIntD : PyVal → ℤ
  | .pyInt i => i
  | _ => 0

/-- Rendering of a `PyVal` for error messages, standing in for Python string
formatting of the value. -/
def pyValRepr : PyVal → String
  | .pyInt i => toString i
  | .pyStr s => s
  | .pyDt d => "datetime-" ++ toString d
  | .pyFloat => "float"
  | .pyNone => "None"

/-- Rendering of a selector for error messages, standing in for the result of
the format call in the `ValueError` messages. -/
def selRepr : Selector → String
  | .pyList xs => "[" ++ String.intercalate ", " (xs.map pyValRepr) ++ "]"
  | .pyTuple xs => "(" ++ String.intercalate ", " (xs.map pyValRepr) ++ ")"
  | .otherVal => "<other>"

/-- Error message of line 60 / line 78 (non-integer element in a list). -/
def listErrMsg (sel : Selector) : String :=
  "Invalid format in " ++ selRepr sel ++ " list, expected integers"

/-- Error message of line 64 (band tuple whose types are not `(int, int)`). -/
def bandsTupleErrMsg (sel : Selector) : String :=
  "Invalid format in " ++ selRepr sel ++ " tuple, expected integers"

/-- Error message of lines 91-92 (date tuple with a disallowed type
combination). -/
def datesTupleErrMsg (sel : Selector) : String :=
  "Invalid format in " ++ selRepr sel ++ " tuple, expected ints, strings, or datetimes"

/-- Error message of line 68 / line 95 (selector neither list nor tuple). -/
def containerErrMsg (sel : Selector) : String :=
  "Invalid format in " ++ selRepr sel ++ ", expected tuple or list"

/-- The `ValueError` message produced by `_get_bands_subset` for a malformed
band selector, by container kind. -/
def bandsErrMsg : Selector → String
  | s@(.pyList _) => listErrMsg s
  | s@(.pyTuple _) => bandsTupleErrMsg s
  | s => containerErrMsg s

/-- numpy resolution of one (possibly negative) Python index against an axis
of length `n`: a negative index counts from the end, anything outside
`[-n, n)` is an `IndexError`. -/
def npResolve (n : ℕ) (i : ℤ) : Option ℕ :=
  if 0 ≤ i ∧ i < (n : ℤ) then some i.toNat
  else if -(n : ℤ) ≤ i ∧ i < 0 then some (i + n).toNat
  else none

/-- Resolve a whole integer index array against an axis of length `n`
(numpy fancy indexing bounds check); the first out-of-bounds index raises
an `IndexError`. -/
def resolveAll (n : ℕ) : List ℤ → Except String (List ℕ)
  | [] => .ok []
  | i :: rest =>
    match npResolve n i with
    | none => .error ("IndexError: index " ++ toString i ++ " is out of bounds")
    | some k =>
      match resolveAll n rest with
      | .ok ks => .ok (k :: ks)
      | .error e => .error e

/-- `ExportToTiff._get_bands_subset` (lines 54-70), at the level of the band
positions it selects from an array whose last axis has length `n`
(`bands = np.array(range(array.shape[-1]))`, line 56).

* list selector (lines 58-61): every element must be an `int` (line 59-60),
  then `array[..., np.array(self.band_indices)]` gathers the positions in
  list order.  `np.array([])` of an empty list has float dtype and is
  rejected by numpy fancy indexing, hence the empty-list `IndexError`.
* tuple selector (lines 62-66): the types must be exactly `(int, int)`
  (lines 63-64); then line 65-66 computes
  `np.nonzero(np.where((bands >= lo) & (bands <= hi), bands, 0))[0]`.
  `np.where` puts the band index where the condition holds and the sentinel
  `0` elsewhere, and `np.nonzero` keeps the positions with a non-zero value:
  a position `i` is therefore kept iff `lo ≤ i ≤ hi` AND `i ≠ 0` — the
  sentinel collides with band index `0`.
* anything else (lines 67-68): `ValueError`. -/
def bandsSelIdx (sel : Selector) (n : ℕ) : Except String (List ℕ) :=
  match sel with
  | .pyList xs =>
    if xs.any (fun x => !(isInt x)) then .error (bandsErrMsg (.pyList xs))
    else if xs.isEmpty then
      .error "IndexError: arrays used as indices must be of integer type"
    else resolveAll n (xs.map toIntD)
  | .pyTuple xs =>
    match xs with
    | [PyVal.pyInt lo, PyVal.pyInt hi] =>
      .ok ((List.range n).filter
        (fun i => decide (lo ≤ (i : ℤ) ∧ (i : ℤ) ≤ hi ∧ (i : ℤ) ≠ 0)))
    | _ => .error (bandsErrMsg (.pyTuple xs))
  | .otherVal => .error (bandsErrMsg .otherVal)

/-- The `ValueError` message produced by `_get_dates_subset` for a malformed
date selector, by container kind. -/
def datesErrMsg : Selector → String
  | s@(.pyList _) => listErrMsg s
  | s@(.pyTuple _) => datesTupleErrMsg s
  | s => containerErrMsg s

/-- A band selector is malformed when `_get_bands_subset` rejects it with a
`ValueError`: a list with a non-integer element (lines 59-60), a tuple
whose element types are not exactly `(int, int)` (lines 63-64), or any
other container (lines 67-68). -/
def isMalformedBandSel : Selector → Bool
  | .pyList xs => xs.any (fun x => !(isInt x))
  | .pyTuple xs =>
    match xs with
    | [PyVal.pyInt _, PyVal.pyInt _] => false
    | _ => true
  | .otherVal => true

/-- A date selector is malformed when `_get_dates_subset` rejects it with a
`ValueError`: a list with a non-integer element (lines 77-78), a tuple
whose element types are none of `(int, int)`, `(str, str)`,
`(datetime, datetime)` (lines 81-92), or any other container
(lines 94-95). -/
def isMalformedDateSel : Selector → Bool
  | .pyList xs => xs.any (fun x => !(isInt x))
  | .pyTuple xs =>
    match xs with
    | [PyVal.pyInt _, PyVal.pyInt _] => false
    | [PyVal.pyStr _, PyVal.pyStr _] => false
    | [PyVal.pyDt _, PyVal.pyDt _] => false
    | _ => true
  | .otherVal => true

/-- A rank-4 numpy array `(time, height, width, band)` with integer-valued
pixels, as nested lists. -/
abbrev Arr4 := List (List (List (List ℤ)))

/-- `array.shape[-1]` of a (rectangular, non-empty) rank-4 nested list. -/
def lastDim (a : Arr4) : ℕ :=
  (((a.headD []).headD []).headD []).length

/-- `ExportToTiff._get_bands_subset` acting on a rank-4 array: the selected
band positions are gathered along the last axis
(`array[..., indices]`). -/
def bandsSubsetArr (sel : Selector) (a : Arr4) : Except String Arr4 :=
  match bandsSelIdx sel (lastDim a) with
  | .error e => .error e
  | .ok idxs =>
    .ok (a.map (fun x => x.map (fun r => r.map (fun c => idxs.map (fun k => c.getD k 0)))))

/-- The normalisation of a `(start, end)` date-tuple selector to a pair of
datetime endpoints (`ExportToTiff._get_dates_subset`, lines 81-92):

* `(int, int)` (lines 81-83): the endpoints are `dates[i]` and `dates[j]`
  (numpy scalar indexing, negative indices allowed, `IndexError` outside
  bounds);
* `(str, str)` (lines 84-86): the endpoints are `iso_to_datetime` of each
  string — the external parser is passed in as `parse`;
* `(datetime, datetime)` (lines 87-89): the endpoints are used directly;
* any other type combination (lines 90-92): `ValueError`. -/
def tupleEndpoints (parse : String → ℤ) (ts : List ℤ) : List PyVal → Except String (ℤ × ℤ)
  | [PyVal.pyInt i, PyVal.pyInt j] =>
    match npResolve ts.length i, npResolve ts.length j with
    | some ki, some kj => .ok (ts.getD ki 0, ts.getD kj 0)
    | _, _ => .error "IndexError: index is out of bounds"
  | [PyVal.pyStr s1, PyVal.pyStr s2] => .ok (parse s1, parse s2)
  | [PyVal.pyDt d1, PyVal.pyDt d2] => .ok (d1, d2)
  | xs => .error (datesTupleErrMsg (.pyTuple xs))

/-- `ExportToTiff._get_dates_subset` (lines 72-97), at the level of the time
positions it selects from an array whose first axis has length `n₀`, given
the patch timestamps `ts` (modelled by their ordinals).

* list selector (lines 76-79): as for bands — integer check, then
  `array[np.array(self.date_indices)]` gathers the rows in list order.
* tuple selector (lines 80-93): the endpoints are normalised by
  `tupleEndpoints`, then line 93 evaluates
  `np.nonzero(np.where((dates >= start) & (dates <= end), dates, 0))[0]`.
  `dates` is an object array of `datetime` values, so `np.nonzero` keeps the
  positions whose entry is truthy: every `datetime` is truthy and the
  sentinel `0` is falsy, hence position `t` is kept iff
  `start ≤ dates[t] ≤ end` (no sentinel collision here, unlike the band
  case).  The kept positions then index the array first axis.
* anything else (lines 94-95): `ValueError`. -/
def datesSelIdx (parse : String → ℤ) (sel : Selector) (ts : List ℤ) (n₀ : ℕ) :
    Except String (List ℕ) :=
  match sel with
  | .pyList xs =>
    if xs.any (fun x => !(isInt x)) then .error (listErrMsg (.pyList xs))
    else if xs.isEmpty then
      .error "IndexError: arrays used as indices must be of integer type"
    else resolveAll n₀ (xs.map toIntD)
  | .pyTuple xs =>
    match tupleEndpoints parse ts xs with
    | .error e => .error e
    | .ok (sd, ed) =>
      resolveAll n₀
        (((List.range ts.length).filter
          (fun t => decide (sd ≤ ts.getD t 0 ∧ ts.getD t 0 ≤ ed))).map Int.ofNat)
  | .otherVal => .error (containerErrMsg .otherVal)

/-! ### Shape-level model of `ExportToTiff.execute` (lines 99-136) -/

/-- The feature categories handled by the exporter: time-and-space arrays
(`DATA`, `MASK`), per-timestamp scalars (`SCALAR`), space-only arrays
(`DATA_TIMELESS`, `MASK_TIMELESS`) and timeless scalars
(`SCALAR_TIMELESS`). -/
inductive FeatureType where
  | data
  | mask
  | scalar
  | dataTimeless
  | maskTimeless
  | scalarTimeless
deriving DecidableEq, Repr

/-- Membership test of line 106:
`feature_type in [FeatureType.DATA, FeatureType.MASK, FeatureType.SCALAR]`. -/
def FeatureType.isTimeVarying : FeatureType → Bool
  | .data => true
  | .mask => true
  | .scalar => true
  | _ => false

/-- The rank of the stored attribute array for each category:
`(t,h,w,b)`, `(h,w,b)`, `(t,b)` or `(b)`. -/
def inputRank : FeatureType → ℕ
  | .data => 4
  | .mask => 4
  | .scalar => 2
  | .dataTimeless => 3
  | .maskTimeless => 3
  | .scalarTimeless => 1

/-- Shape of `np.expand_dims(a, axis=0)` (line 115). -/
def expandDims0 (s : List ℕ) : List ℕ := 1 :: s

/-- Shape of `np.expand_dims(a, axis=1)` (lines 111 and 118). -/
def expandDims1 : List ℕ → List ℕ
  | [] => [1]
  | x :: r => x :: 1 :: r

/-- Shape effect of `_get_bands_subset`: the selected positions replace the
last axis (`array[..., indices]`). -/
def bandsSubsetShape (sel : Selector) (s : List ℕ) : Except String (List ℕ) :=
  match bandsSelIdx sel (s.getLastD 0) with
  | .error e => .error e
  | .ok idxs => .ok (s.dropLast ++ [idxs.length])

/-- Shape effect of `_get_dates_subset`: the selected positions replace the
first axis (`array[indices]`). -/
def datesSubsetShape (parse : String → ℤ) (sel : Selector) (ts : List ℤ) (s : List ℕ) :
    Except String (List ℕ) :=
  match datesSelIdx parse sel ts (s.headD 0) with
  | .error e => .error e
  | .ok idxs => .ok (idxs.length :: s.tail)

/-- Selection and rank normalisation of `ExportToTiff.execute`
(lines 104-118) at shape level: band subset, then for time-varying
categories the date subset (plus synthetic height/width axes for `SCALAR`),
otherwise a synthetic time axis (plus synthetic height/width axes for
`SCALAR_TIMELESS`). -/
def normShape (parse : String → ℤ) (bsel dsel : Selector) (ft : FeatureType)
    (ts : List ℤ) (s : List ℕ) : Except String (List ℕ) :=
  match bandsSubsetShape bsel s with
  | .error e => .error e
  | .ok s1 =>
    if ft.isTimeVarying then
      match datesSubsetShape parse dsel ts s1 with
      | .error e => .error e
      | .ok s2 =>
        .ok (if ft = FeatureType.scalar then expandDims1 (expandDims1 s2) else s2)
    else
      .ok (if ft = FeatureType.scalarTimeless then
             expandDims1 (expandDims1 (expandDims0 s1))
           else expandDims0 s1)

/-- The metadata of the GeoTiff file created by lines 127-134: `count` is
`time_dim * band_dim` (lines 120-122, 129), `height`/`width` come from the
normalised shape (lines 120, 128). -/
structure TiffWrite where
  count : ℕ
  height : ℕ
  width : ℕ
deriving DecidableEq, Repr

/-- `ExportToTiff.execute` (lines 99-136) at shape level.  The subset steps
run before `rasterio.open` (line 127), so an error in them yields no file;
a file (`TiffWrite`) is produced only when the whole pipeline succeeds.
Line 120 unpacks the normalised shape into exactly four components. -/
def executeExportShape (parse : String → ℤ) (bsel dsel : Selector) (ft : FeatureType)
    (ts : List ℤ) (s : List ℕ) : Except String TiffWrite :=
  match normShape parse bsel dsel ft ts s with
  | .error e => .error e
  | .ok s4 =>
    match s4 with
    | [t, h, w, b] => .ok ⟨t * b, h, w⟩
    | _ => .error "ValueError: not enough values to unpack"

/-! ### Value-level model of the write step (lines 132-134) -/

/-- The `(height, width)` plane of `a` at time `t` and band `b`:
`a[t, :, :, b]`. -/
def slicePlane (a : Arr4) (t b : ℕ) : List (List ℤ) :=
  (a.getD t []).map (fun r => r.map (fun c => c.getD b 0))

/-- Lines 132-134:
`np.moveaxis(output_array, -1, 1).reshape(index, height, width)` followed by
`dst.write(output_array)`.  `moveaxis` sends `(t,h,w,b)` to `(t,b,h,w)` —
per time step, the band-`b` plane `a[t, :, :, b]` — and `reshape` to
`(t*b, h, w)` flattens the leading two axes in row-major order, i.e.
concatenates the per-time lists of planes.  `dst.write` stores the `k`-th
plane (0-based) as file band `k + 1`. -/
def writePlanes (a : Arr4) : List (List (List ℤ)) :=
  (a.map (fun x => (List.range (lastDim a)).map (fun b =>
    x.map (fun r => r.map (fun c => c.getD b 0))))).flatten

/-- Rectangularity of a rank-4 nested list: `a` has shape `(T, H, W, B)`. -/
abbrev wf4 (a : Arr4) (T H W B : ℕ) : Prop :=
  a.length = T ∧ ∀ x ∈ a, x.length = H ∧ ∀ r ∈ x, r.length = W ∧ ∀ c ∈ r, c.length = B

/-! ### Model of `ReadFromTiff` (lines 138-199) -/

/-- A Python `int()` call on a float: truncation toward zero. -/
def pythonInt (q : ℚ) : ℤ := if 0 ≤ q then ⌊q⌋ else ⌈q⌉

/-- The data the importer reads from the opened source raster:
`src.transform[0]` and `src.transform[4]` (the signed per-pixel
resolutions, line 152), `src.bounds.left` and `src.bounds.top` (line 160)
and `src.count` (line 192). -/
structure SrcRaster where
  xRes : ℚ
  yRes : ℚ
  left : ℚ
  top : ℚ
  count : ℕ
deriving DecidableEq, Repr

/-- The patch bounding box: `bbox.min_x`, `bbox.max_x`, `bbox.min_y`,
`bbox.max_y`. -/
structure BBox where
  minX : ℚ
  maxX : ℚ
  minY : ℚ
  maxY : ℚ
deriving DecidableEq, Repr

/-- The window arithmetic of `_get_window`, lines 163-168, given the two
projected corners `ul` (upper-left) and `lr` (lower-right): each pixel
coordinate is an offset from the source origin divided by the signed
resolution and truncated to an integer; the result is
`((top, bottom), (left, right))`. -/
def windowOf (src : SrcRaster) (ul lr : ℚ × ℚ) : (ℤ × ℤ) × (ℤ × ℤ) :=
  ((pythonInt ((ul.2 - src.top) / src.yRes), pythonInt ((lr.2 - src.top) / src.yRes)),
   (pythonInt ((ul.1 - src.left) / src.xRes), pythonInt ((lr.1 - src.left) / src.xRes)))

/-- `ReadFromTiff._get_window` (lines 151-168).  The pyproj re-projection of
a point from the bbox CRS into the source CRS is the external collaborator
`projE`; it is called on `(bbox.min_x, bbox.max_y)` (line 157) and then on
`(bbox.max_x, bbox.min_y)` (line 158), and a projection failure
propagates. -/
def getWindowE (projE : ℚ × ℚ → Except String (ℚ × ℚ)) (src : SrcRaster) (bbox : BBox) :
    Except String ((ℤ × ℤ) × (ℤ × ℤ)) :=
  match projE (bbox.minX, bbox.maxY), projE (bbox.maxX, bbox.minY) with
  | .ok ul, .ok lr => .ok (windowOf src ul lr)
  | .error e, _ => .error e
  | _, .error e => .error e

/-- `ReadFromTiff._get_width_height` (lines 170-173): from the window
`((top, bottom), (left, right))` it returns
`(window[1][1] - window[1][0], window[0][1] - window[0][0])`, i.e.
`(right - left, bottom - top)`. -/
def getWidthHeightE (projE : ℚ × ℚ → Except String (ℚ × ℚ)) (src : SrcRaster) (bbox : BBox) :
    Except String (ℤ × ℤ) :=
  match getWindowE projE src bbox with
  | .ok w => .ok (w.2.2 - w.2.1, w.1.2 - w.1.1)
  | .error e => .error e

/-- Python truthiness of the optional `width` / `height` parameter:
`None` and `0` are falsy, any other integer is truthy. -/
def pyTruthyInt : Option ℤ → Bool
  | none => false
  | some v => v != 0

/-- Lines 190-191: `if not width or not height: width, height =
self._get_width_height(src, bbox)` — when either parameter is falsy, both
are replaced by the window-derived pair; otherwise the supplied values are
kept. -/
def resolveWH (projE : ℚ × ℚ → Except String (ℚ × ℚ)) (src : SrcRaster) (bbox : BBox)
    (width height : Option ℤ) : Except String (ℤ × ℤ) :=
  if pyTruthyInt width && pyTruthyInt height then .ok (width.getD 0, height.getD 0)
  else getWidthHeightE projE src bbox

/-- The band-reading loop of lines 195-196: `for band in range(bands):
src.read(band + 1, ...)`; the first failing read raises.  The actual pixel
decoding is the external collaborator `readBand`. -/
def readSeq (readBand : ℕ → Except String Unit) : List ℕ → Except String Unit
  | [] => .ok ()
  | b :: rest =>
    match readBand (b + 1) with
    | .ok _ => readSeq readBand rest
    | .error e => .error e

/-- The part of an `EOPatch` the importer touches: its `MASK_TIMELESS`
attributes, as an association list from attribute name to the shape of the
stored array (lookup takes the first matching entry). -/
structure ImpPatch where
  maskTimeless : List (String × List ℕ)
deriving DecidableEq, Repr

/-- `ReadFromTiff.execute` (lines 175-199) at shape level.

* open the source raster (`rasterio.open`, line 189) — external
  collaborator `openSrc`, failure propagates;
* resolve `width`/`height` (lines 190-191);
* `np.empty(shape=(bands, width, height))` (line 193): numpy raises
  `ValueError` on a negative dimension — note the allocation order is
  `(bands, width, height)`, not `(bands, height, width)`;
* `self._get_window(src, bbox)` again (line 194), failure propagates;
* read every band (lines 195-196), failure propagates;
* only after all reads complete, line 198 stores
  `np.moveaxis(data, 0, -1)` — shape `(width, height, bands)` — under
  `self.mask_name`, overwriting any existing attribute of that name.
  On any earlier failure the exception propagates and the patch is not
  touched. -/
def executeImport (openSrc : Except String SrcRaster)
    (projE : ℚ × ℚ → Except String (ℚ × ℚ))
    (readBand : ℕ → Except String Unit)
    (maskName : String) (patch : ImpPatch) (bbox : BBox)
    (width height : Option ℤ) : Except String ImpPatch :=
  match openSrc with
  | .error e => .error e
  | .ok src =>
    match resolveWH projE src bbox width height with
    | .error e => .error e
    | .ok (w, h) =>
      if w < 0 ∨ h < 0 then
        .error "ValueError: negative dimensions are not allowed"
      else
        match getWindowE projE src bbox with
        | .error e => .error e
        | .ok _window =>
          match readSeq readBand (List.range src.count) with
          | .error e => .error e
          | .ok _ =>
            .ok { patch with maskTimeless :=
              (maskName, [w.toNat, h.toNat, src.count]) ::
                patch.maskTimeless.filter (fun p => p.1 ≠ maskName) }

/-! ### Concrete instances used by witnesses and counterexamples -/

/-- A concrete stand-in for `iso_to_datetime` that never matters (the run
never reaches a string endpoint). -/
def parseZero : String → ℤ := fun _ => 0

/-- A concrete stand-in for `iso_to_datetime` mapping the ISO string `a`
to ordinal 3 and everything else to ordinal 7. -/
def parseAB : String → ℤ := fun s => if s = "a" then 3 else 7

/-- A projection that succeeds and maps every point to itself (bbox CRS equal
to the source CRS). -/
def projId : ℚ × ℚ → Except String (ℚ × ℚ) := fun p => .ok p

/-- A concrete source raster: resolution `(1, -1)`, origin `(0, 10)`,
4 bands. -/
def srcEg : SrcRaster := ⟨1, -1, 0, 10, 4⟩

/-- A concrete bounding box `[0, 2] × [0, 3]`. -/
def bboxEg : BBox := ⟨0, 2, 0, 3⟩

/-- A concrete `(t=2, h=1, w=1, b=2)` array with pairwise distinct pixels:
`a[t, 0, 0, b] = 10 * (t + 1) + b`. -/
def exArr : Arr4 := [[[[10, 11]]], [[[20, 21]]]]

/-- A concrete `(t=1, h=1, w=1, b=2)` array with pixels `5, 6`. -/
def arrEg : Arr4 := [[[[5, 6]]]]

/-- A read call that always succeeds. -/
def readOk : ℕ → Except String Unit := fun _ => .ok ()

/-- A projection that always fails (incompatible coordinate reference
systems). -/
def projFail : ℚ × ℚ → Except String (ℚ × ℚ) := fun _ => .error "proj-error"

/-- A read call that always fails. -/
def readFail : ℕ → Except String Unit := fun _ => .error "read-error"

end LocalIO

namespace LocalIO

/-! ### Claim theorems -/

/-- C1 (code evaluated at the failing input): for the band range selector
`(0, 2)` on an array with 3 bands, `_get_bands_subset` keeps only band
positions `[1, 2]` — band index `0` is dropped because the `np.where`
sentinel `0` of lines 65-66 collides with band index `0` — whereas the
claim requires exactly the indices `0 ≤ i ≤ 2`, i.e. `[0, 1, 2]`, and in
particular band `0` to be kept since `lo ≤ 0 ≤ hi`. -/
theorem c1_code_divergence :
    bandsSelIdx (.pyTuple [PyVal.pyInt 0, PyVal.pyInt 2]) 3 = .ok [1, 2] ∧
    bandsSelIdx (.pyTuple [PyVal.pyInt 0, PyVal.pyInt 2]) 3 ≠ .ok [0, 1, 2] := by
  have h1 : bandsSelIdx (.pyTuple [PyVal.pyInt 0, PyVal.pyInt 2]) 3 = .ok [1, 2] := rfl
  refine ⟨h1, fun h => ?_⟩
  exact absurd (Except.ok.inj (h1.symm.trans h)) (by decide)

/-- C2 counterexample: with `T = 2` times and `B = 2` bands on `exArr`,
file band `k = 1` (1-based) holds the plane `[[10]] = exArr[0, :, :, 0]`,
not the plane for time `k / B = 0` and band `k % B = 1`, which is
`[[11]]`.  The claim's 1-based formula `(k / B, k % B)` is therefore
false. -/
theorem c2_counterexample :
    (writePlanes exArr)[1 - 1]? = some [[(10 : ℤ)]] ∧
    slicePlane exArr (1 / 2) (1 % 2) = [[(11 : ℤ)]] ∧
    (writePlanes exArr)[1 - 1]? ≠ some (slicePlane exArr (1 / 2) (1 % 2)) := by
  refine ⟨rfl, rfl, ?_⟩
  decide

/-- C3 (code evaluated at the failing input): importing a 4-band source with
supplied `width = 2`, `height = 3` stores, under the configured name and
overwriting the previous entry, an array of shape
`(width, height, bands) = (2, 3, 4)` — the code allocates
`np.empty(shape=(bands, width, height))` and moves axis 0 last — whereas
the claim requires shape `(height, width, N) = (3, 2, 4)`. -/
theorem c3_code_divergence :
    executeImport (.ok srcEg) projId readOk "m" ⟨[("m", [9, 9, 9])]⟩ bboxEg
        (some 2) (some 3) = .ok ⟨[("m", [2, 3, 4])]⟩ ∧
    executeImport (.ok srcEg) projId readOk "m" ⟨[("m", [9, 9, 9])]⟩ bboxEg
        (some 2) (some 3) ≠ .ok ⟨[("m", [3, 2, 4])]⟩ := by
  have h1 : executeImport (.ok srcEg) projId readOk "m" ⟨[("m", [9, 9, 9])]⟩ bboxEg
      (some 2) (some 3) = .ok ⟨[("m", [2, 3, 4])]⟩ := rfl
  refine ⟨h1, fun h => ?_⟩
  exact absurd (Except.ok.inj (h1.symm.trans h)) (by decide)

/-- C4 counterexample: a malformed date selector (here: neither list nor
tuple) together with a timeless feature (`SCALAR_TIMELESS`) does NOT raise:
`_get_dates_subset` is only called for time-varying categories
(line 106), so the export succeeds and a file is written.  The claim, which
promises an invalid-configuration error for every malformed date selector,
is therefore false. -/
theorem c4_counterexample :
    isMalformedDateSel Selector.otherVal = true ∧
    executeExportShape parseZero (.pyList [PyVal.pyInt 0]) Selector.otherVal
      FeatureType.scalarTimeless [] [3] = .ok ⟨1, 1, 1⟩ := by
  constructor
  · rfl
  · rfl

/-- When every index is inside `[0, n)`, numpy index resolution keeps the
indices unchanged (as naturals), in order. -/
theorem resolveAll_ok (n : ℕ) (l : List ℤ) (h : ∀ z ∈ l, 0 ≤ z ∧ z < (n : ℤ)) :
    resolveAll n l = .ok (l.map Int.toNat) := by
  induction l with
  | nil => rfl
  | cons i rest ih =>
    have hi := h i (List.mem_cons_self i rest)
    have hres : npResolve n i = some i.toNat := by
      simp only [npResolve, if_pos (And.intro hi.1 hi.2)]
    have ih2 := ih (fun z hz => h z (List.mem_cons_of_mem _ hz))
    simp [resolveAll, hres, ih2]

/-- C7: for a band selector given as a Python list, a non-integer element is
rejected with the invalid-configuration `ValueError` naming the list, and a
list of in-range integers `[b0, …, bk]` gathers the sub-array along the band
axis in exactly that list order, so each pixel vector becomes
`[v[b0], …, v[bk]]`. -/
theorem c7_list_band_order (xs : List PyVal) (zs : List ℤ) (a : Arr4) :
    ((xs.any fun x => !(isInt x)) = true →
      bandsSubsetArr (.pyList xs) a = .error (bandsErrMsg (.pyList xs))) ∧
    (xs = zs.map PyVal.pyInt → zs ≠ [] → (∀ z ∈ zs, 0 ≤ z ∧ z < (lastDim a : ℤ)) →
      bandsSubsetArr (.pyList xs) a =
        .ok (a.map (fun x => x.map (fun r => r.map
          (fun c => zs.map (fun z => c.getD z.toNat 0)))))) := by
  constructor
  · intro hbad
    simp [bandsSubsetArr, bandsSelIdx, hbad]
  · intro hxs hne hrange
    subst hxs
    have hany : ((zs.map PyVal.pyInt).any fun x => !(isInt x)) = false := by
      simp [List.any_map, isInt, Function.comp]
    have hemp : (zs.map PyVal.pyInt).isEmpty = false := by
      cases zs with
      | nil => exact absurd rfl hne
      | cons z zt => rfl
    have hmap : (zs.map PyVal.pyInt).map toIntD = zs := by
      rw [List.map_map]
      have : (toIntD ∘ PyVal.pyInt) = id := funext (fun z => rfl)
      rw [this, List.map_id]
    simp [bandsSubsetArr, bandsSelIdx, hany, hemp, hmap,
      resolveAll_ok _ _ hrange, List.map_map, Function.comp]

/-- C7 witness: a list with a string element is rejected with the
invalid-configuration error, and the list `[1, 0]` exports the bands in
exactly that order (`[5, 6]` becomes `[6, 5]`). -/
theorem c7_list_band_order_witness :
    bandsSubsetArr (.pyList [PyVal.pyStr "x"]) arrEg =
      .error (bandsErrMsg (.pyList [PyVal.pyStr "x"])) ∧
    bandsSubsetArr (.pyList [PyVal.pyInt 1, PyVal.pyInt 0]) arrEg =
      .ok [[[[6, 5]]]] := by
  constructor
  · exact (c7_list_band_order [PyVal.pyStr "x"] [] arrEg).1 (by decide)
  · exact (c7_list_band_order [PyVal.pyInt 1, PyVal.pyInt 0] [1, 0] arrEg).2
      rfl (by decide) (by decide)

/-- C5: a date range selector expressed as an `(int, int)` index pair, as an
`(ISO-string, ISO-string)` pair, or as a `(datetime, datetime)` pair
denoting the same logical interval — the normalised endpoints coincide —
selects the identical subset of timestamp positions (and hence the identical
date sub-array). -/
theorem c5_date_selector_equiv (parse : String → ℤ) (ts : List ℤ) (n₀ : ℕ)
    (i j d1 d2 : ℤ) (s1 s2 : String)
    (hij : tupleEndpoints parse ts [PyVal.pyInt i, PyVal.pyInt j] = .ok (d1, d2))
    (hs1 : parse s1 = d1) (hs2 : parse s2 = d2) :
    datesSelIdx parse (.pyTuple [PyVal.pyInt i, PyVal.pyInt j]) ts n₀ =
      datesSelIdx parse (.pyTuple [PyVal.pyStr s1, PyVal.pyStr s2]) ts n₀ ∧
    datesSelIdx parse (.pyTuple [PyVal.pyInt i, PyVal.pyInt j]) ts n₀ =
      datesSelIdx parse (.pyTuple [PyVal.pyDt d1, PyVal.pyDt d2]) ts n₀ := by
  have hstr : tupleEndpoints parse ts [PyVal.pyStr s1, PyVal.pyStr s2] = .ok (d1, d2) := by
    simp [tupleEndpoints, hs1, hs2]
  have hdt : tupleEndpoints parse ts [PyVal.pyDt d1, PyVal.pyDt d2] = .ok (d1, d2) := rfl
  constructor <;> simp only [datesSelIdx, hij, hstr, hdt]

/-- C5 witness: over timestamps with ordinals `[3, 5, 7]`, the index pair
`(0, 2)`, the string pair parsed to `(3, 7)` and the datetime pair `(3, 7)`
select the same positions. -/
theorem c5_date_selector_equiv_witness :
    datesSelIdx parseAB (.pyTuple [PyVal.pyInt 0, PyVal.pyInt 2]) [3, 5, 7] 3 =
      datesSelIdx parseAB (.pyTuple [PyVal.pyStr "a", PyVal.pyStr "b"]) [3, 5, 7] 3 ∧
    datesSelIdx parseAB (.pyTuple [PyVal.pyInt 0, PyVal.pyInt 2]) [3, 5, 7] 3 =
      datesSelIdx parseAB (.pyTuple [PyVal.pyDt 3, PyVal.pyDt 7]) [3, 5, 7] 3 :=
  c5_date_selector_equiv parseAB [3, 5, 7] 3 0 2 3 7 "a" "b" rfl rfl rfl

/-- A malformed band selector makes `_get_bands_subset` raise the
`ValueError` naming the selector, whatever the band count. -/
theorem bandsSelIdx_malformed (sel : Selector) (n : ℕ)
    (h : isMalformedBandSel sel = true) :
    bandsSelIdx sel n = .error (bandsErrMsg sel) := by
  cases sel with
  | pyList xs =>
    have h' : (xs.any fun x => !(isInt x)) = true := h
    simp [bandsSelIdx, h']
  | pyTuple xs =>
    rcases xs with _ | ⟨x1, _ | ⟨x2, _ | ⟨x3, rest⟩⟩⟩
    · rfl
    · cases x1 <;> rfl
    · cases x1 <;> cases x2 <;> first
        | rfl
        | simp [isMalformedBandSel] at h
    · cases x1 <;> cases x2 <;> rfl
  | otherVal => rfl

/-- A malformed date selector makes `_get_dates_subset` raise the
`ValueError` naming the selector, whatever the timestamps or the array. -/
theorem datesSelIdx_malformed (parse : String → ℤ) (sel : Selector) (ts : List ℤ)
    (n₀ : ℕ) (h : isMalformedDateSel sel = true) :
    datesSelIdx parse sel ts n₀ = .error (datesErrMsg sel) := by
  cases sel with
  | pyList xs =>
    have h' : (xs.any fun x => !(isInt x)) = true := h
    simp [datesSelIdx, h', datesErrMsg]
  | pyTuple xs =>
    have he : tupleEndpoints parse ts xs = .error (datesTupleErrMsg (.pyTuple xs)) := by
      rcases xs with _ | ⟨x1, _ | ⟨x2, _ | ⟨x3, rest⟩⟩⟩
      · rfl
      · cases x1 <;> rfl
      · cases x1 <;> cases x2 <;> first
          | rfl
          | simp [isMalformedDateSel] at h
      · cases x1 <;> cases x2 <;> rfl
    simp [datesSelIdx, he, datesErrMsg]
  | otherVal => rfl

/-- C4 (amended): a malformed band selector always makes the export fail
with the invalid-configuration `ValueError` naming the selector, before any
file is opened and with no output file produced; a malformed date selector
does so whenever the exported feature is time-varying (for timeless
features the date selector is never inspected).  In this model an
`Except.error` result means the pipeline stopped before `rasterio.open`,
so no `TiffWrite` exists. -/
theorem c4_amended (parse : String → ℤ) (bsel dsel : Selector) (ft : FeatureType)
    (ts : List ℤ) (s : List ℕ) :
    (isMalformedBandSel bsel = true →
      executeExportShape parse bsel dsel ft ts s = .error (bandsErrMsg bsel)) ∧
    (isMalformedDateSel dsel = true → ft.isTimeVarying = true →
      ∃ m, executeExportShape parse bsel dsel ft ts s = .error m) := by
  constructor
  · intro hb
    have hbs : bandsSubsetShape bsel s = .error (bandsErrMsg bsel) := by
      unfold bandsSubsetShape
      rw [bandsSelIdx_malformed bsel (s.getLastD 0) hb]
    simp [executeExportShape, normShape, hbs]
  · intro hd htv
    cases hbs : bandsSubsetShape bsel s with
    | error e =>
      exact ⟨e, by simp [executeExportShape, normShape, hbs]⟩
    | ok s1 =>
      have hds : datesSubsetShape parse dsel ts s1 = .error (datesErrMsg dsel) := by
        unfold datesSubsetShape
        rw [datesSelIdx_malformed parse dsel ts (s1.headD 0) hd]
      exact ⟨datesErrMsg dsel,
        by simp [executeExportShape, normShape, hbs, htv, hds]⟩

/-- C4 witness: a band selector that is neither list nor tuple fails with
the container error before any file output, and a `(int, str)` date tuple
on a time-varying feature also fails. -/
theorem c4_amended_witness :
    executeExportShape parseZero Selector.otherVal (.pyList [PyVal.pyInt 0])
      FeatureType.data [] [1, 1, 1, 2] = .error (bandsErrMsg Selector.otherVal) ∧
    ∃ m, executeExportShape parseZero (.pyList [PyVal.pyInt 0])
      (.pyTuple [PyVal.pyInt 0, PyVal.pyStr "x"]) FeatureType.data [0] [1, 1, 1, 2]
        = .error m :=
  ⟨(c4_amended parseZero Selector.otherVal (.pyList [PyVal.pyInt 0])
      FeatureType.data [] [1, 1, 1, 2]).1 rfl,
   (c4_amended parseZero (.pyList [PyVal.pyInt 0])
      (.pyTuple [PyVal.pyInt 0, PyVal.pyStr "x"]) FeatureType.data [0]
      [1, 1, 1, 2]).2 rfl rfl⟩

/-- The band subset replaces the last axis, so it preserves the rank of a
non-scalar array. -/
theorem bandsSubsetShape_length (sel : Selector) (s s1 : List ℕ) (hs : s ≠ [])
    (h : bandsSubsetShape sel s = .ok s1) : s1.length = s.length := by
  unfold bandsSubsetShape at h
  cases hb : bandsSelIdx sel (s.getLastD 0) with
  | error e => rw [hb] at h; exact absurd h (by simp)
  | ok idxs =>
    rw [hb] at h
    have h2 := Except.ok.inj h
    subst h2
    have hlen : 0 < s.length := List.length_pos.mpr hs
    simp [List.length_dropLast]
    omega

/-- The date subset replaces the first axis, so it preserves the rank of a
non-scalar array. -/
theorem datesSubsetShape_length (parse : String → ℤ) (sel : Selector) (ts : List ℤ)
    (s1 s2 : List ℕ) (hs : s1 ≠ [])
    (h : datesSubsetShape parse sel ts s1 = .ok s2) : s2.length = s1.length := by
  unfold datesSubsetShape at h
  cases hd : datesSelIdx parse sel ts (s1.headD 0) with
  | error e => rw [hd] at h; exact absurd h (by simp)
  | ok idxs =>
    rw [hd] at h
    have h2 := Except.ok.inj h
    subst h2
    have hlen : 0 < s1.length := List.length_pos.mpr hs
    simp [List.length_tail]
    omega

/-- `np.expand_dims(·, axis=1)` adds one axis. -/
theorem expandDims1_length (s : List ℕ) : (expandDims1 s).length = s.length + 1 := by
  cases s <;> rfl

/-- C6: for every feature category the exporter handles — time-and-space
(`DATA`/`MASK`, rank 4), space-only (rank 3), per-timestamp scalar
(rank 2) and timeless scalar (rank 1) — the array produced by selection and
rank normalisation (lines 104-118) and passed to the writer is always of
rank 4. -/
theorem c6_rank4 (parse : String → ℤ) (bsel dsel : Selector) (ft : FeatureType)
    (ts : List ℤ) (s s4 : List ℕ) (hrank : s.length = inputRank ft)
    (h : normShape parse bsel dsel ft ts s = .ok s4) : s4.length = 4 := by
  have hs : s ≠ [] := by
    intro h0
    rw [h0] at hrank
    cases ft <;> simp [inputRank] at hrank
  unfold normShape at h
  cases hbs : bandsSubsetShape bsel s with
  | error e =>
    simp only [hbs] at h
    exact Except.noConfusion h
  | ok s1 =>
    simp only [hbs] at h
    have hl1 : s1.length = s.length := bandsSubsetShape_length bsel s s1 hs hbs
    have hs1 : s1 ≠ [] := by
      intro h0
      have hzero : s.length = 0 := by rw [← hl1, h0]; rfl
      rw [hzero] at hrank
      cases ft <;> simp [inputRank] at hrank
    cases ft with
    | data =>
      have hr : s.length = 4 := hrank
      rw [if_pos (by decide)] at h
      cases hds : datesSubsetShape parse dsel ts s1 with
      | error e =>
        simp only [hds] at h
        exact Except.noConfusion h
      | ok s2 =>
        simp only [hds] at h
        have hl2 := datesSubsetShape_length parse dsel ts s1 s2 hs1 hds
        rw [if_neg (by decide)] at h
        have h4 := Except.ok.inj h
        subst h4
        omega
    | mask =>
      have hr : s.length = 4 := hrank
      rw [if_pos (by decide)] at h
      cases hds : datesSubsetShape parse dsel ts s1 with
      | error e =>
        simp only [hds] at h
        exact Except.noConfusion h
      | ok s2 =>
        simp only [hds] at h
        have hl2 := datesSubsetShape_length parse dsel ts s1 s2 hs1 hds
        rw [if_neg (by decide)] at h
        have h4 := Except.ok.inj h
        subst h4
        omega
    | scalar =>
      have hr : s.length = 2 := hrank
      rw [if_pos (by decide)] at h
      cases hds : datesSubsetShape parse dsel ts s1 with
      | error e =>
        simp only [hds] at h
        exact Except.noConfusion h
      | ok s2 =>
        simp only [hds] at h
        have hl2 := datesSubsetShape_length parse dsel ts s1 s2 hs1 hds
        rw [if_pos (by decide)] at h
        have h4 := Except.ok.inj h
        subst h4
        rw [expandDims1_length, expandDims1_length]
        omega
    | dataTimeless =>
      have hr : s.length = 3 := hrank
      rw [if_neg (by decide), if_neg (by decide)] at h
      have h4 := Except.ok.inj h
      subst h4
      simp only [expandDims0, List.length_cons]
      omega
    | maskTimeless =>
      have hr : s.length = 3 := hrank
      rw [if_neg (by decide), if_neg (by decide)] at h
      have h4 := Except.ok.inj h
      subst h4
      simp only [expandDims0, List.length_cons]
      omega
    | scalarTimeless =>
      have hr : s.length = 1 := hrank
      rw [if_neg (by decide), if_pos (by decide)] at h
      have h4 := Except.ok.inj h
      subst h4
      rw [expandDims1_length, expandDims1_length]
      simp only [expandDims0, List.length_cons]
      omega

/-- C6 witness: a `DATA` feature of shape `(2, 3, 4, 5)` with singleton
selectors normalises to the rank-4 shape `[1, 3, 4, 1]`. -/
theorem c6_rank4_witness : ([1, 3, 4, 1] : List ℕ).length = 4 :=
  c6_rank4 parseZero (.pyList [PyVal.pyInt 0]) (.pyList [PyVal.pyInt 0])
    FeatureType.data [0, 1] [2, 3, 4, 5] [1, 3, 4, 1] rfl rfl

/-- Indexing a flattening of lists that all have length `B`: entry `k` lives
in chunk `k / B` at offset `k % B`. -/
theorem flatten_getElem_chunks {α : Type} (B : ℕ) :
    ∀ (L : List (List α)) (k : ℕ), (∀ l ∈ L, l.length = B) → k < L.length * B →
      L.flatten[k]? = (L[k / B]?).bind (fun l => l[k % B]?) := by
  intro L
  induction L with
  | nil =>
    intro k _ hk
    simp at hk
  | cons x Ls ih =>
    intro k hall hk
    have hx : x.length = B := hall x (List.mem_cons_self x Ls)
    have hB : 0 < B := by
      rcases Nat.eq_zero_or_pos B with h0 | h
      · rw [h0] at hk; simp at hk
      · exact h
    rw [List.flatten_cons]
    by_cases hkB : k < B
    · rw [Nat.div_eq_of_lt hkB, Nat.mod_eq_of_lt hkB]
      rw [List.getElem?_append_left (by rw [hx]; exact hkB)]
      simp
    · push_neg at hkB
      rw [List.getElem?_append_right (by rw [hx]; exact hkB)]
      have hsub : k = (k - B) + B := (Nat.sub_add_cancel hkB).symm
      have hdiv : k / B = (k - B) / B + 1 := by
        conv_lhs => rw [hsub]
        exact Nat.add_div_right _ hB
      have hmod : k % B = (k - B) % B := by
        conv_lhs => rw [hsub]
        exact Nat.add_mod_right _ _
      rw [hdiv, hmod, List.getElem?_cons_succ, hx]
      refine ih (k - B) (fun l hl => hall l (List.mem_cons_of_mem _ hl)) ?_
      have hlen : (x :: Ls).length * B = Ls.length * B + B := by
        simp [List.length_cons, Nat.succ_mul]
      rw [hlen] at hk
      omega

/-- On a non-degenerate rectangular `(T, H, W, B)` array, `shape[-1]`
computed through the nested-list representation is `B`. -/
theorem lastDim_eq (a : Arr4) (T H W B : ℕ) (hw : wf4 a T H W B)
    (hT : 0 < T) (hH : 0 < H) (hW : 0 < W) : lastDim a = B := by
  obtain ⟨hlen, hx⟩ := hw
  cases a with
  | nil => rw [← hlen] at hT; simp at hT
  | cons x a' =>
    have hx0 := hx x (List.mem_cons_self _ _)
    cases x with
    | nil => rw [← hx0.1] at hH; simp at hH
    | cons r x' =>
      have hr0 := hx0.2 r (List.mem_cons_self _ _)
      cases r with
      | nil => rw [← hr0.1] at hW; simp at hW
      | cons c r' =>
        have hc0 := hr0.2 c (List.mem_cons_self _ _)
        simpa [lastDim] using hc0

/-- C2 (amended): with `T` selected times and `B` selected bands (and
non-degenerate spatial dimensions), the written raster has exactly `T * B`
file bands, and 1-based file band `k` holds the plane for 0-based time
index `(k - 1) / B` and 0-based band index `(k - 1) % B` — the T-major
ordering `T1B1, T1B2, …, T1BN, T2B1, …, TMBN`. -/
theorem c2_amended (a : Arr4) (T H W B k : ℕ)
    (hw : wf4 a T H W B) (hH : 0 < H) (hW : 0 < W)
    (hk1 : 1 ≤ k) (hk2 : k ≤ T * B) :
    (writePlanes a).length = T * B ∧
    (writePlanes a)[k - 1]? = some (slicePlane a ((k - 1) / B) ((k - 1) % B)) := by
  have hTB : 0 < T * B := lt_of_lt_of_le hk1 hk2
  have hT : 0 < T := by
    rcases Nat.eq_zero_or_pos T with h0 | h
    · rw [h0] at hTB; simp at hTB
    · exact h
  have hB : 0 < B := by
    rcases Nat.eq_zero_or_pos B with h0 | h
    · rw [h0] at hTB; simp at hTB
    · exact h
  have hld : lastDim a = B := lastDim_eq a T H W B hw hT hH hW
  obtain ⟨hlen, hx⟩ := hw
  have hf : ∀ p ∈ a.map (fun x => (List.range (lastDim a)).map (fun b =>
      x.map (fun r => r.map (fun c => c.getD b 0)))), p.length = B := by
    intro p hp
    obtain ⟨x, _, rfl⟩ := List.mem_map.mp hp
    simp [hld]
  have hlenmap : (a.map (fun x => (List.range (lastDim a)).map (fun b =>
      x.map (fun r => r.map (fun c => c.getD b 0))))).length = T := by
    simp [hlen]
  constructor
  · rw [writePlanes, List.length_flatten]
    have : (a.map (fun x => (List.range (lastDim a)).map (fun b =>
        x.map (fun r => r.map (fun c => c.getD b 0))))).map List.length
        = List.replicate T B := by
      rw [List.map_map]
      have hcomp : ∀ x ∈ a, (List.length ∘ fun x => (List.range (lastDim a)).map
          (fun b => x.map (fun r => r.map (fun c => c.getD b 0)))) x = B := by
        intro x _
        simp [hld]
      rw [List.map_congr_left hcomp, List.map_const', hlen]
    rw [this]
    simp [List.sum_replicate, smul_eq_mul]
  · have hk' : k - 1 < T * B := by omega
    rw [writePlanes, flatten_getElem_chunks B _ (k - 1) hf (by rw [hlenmap]; exact hk')]
    have hdivT : (k - 1) / B < T := (Nat.div_lt_iff_lt_mul hB).mpr hk'
    have hdivT' : (k - 1) / B < a.length := by rw [hlen]; exact hdivT
    rw [List.getElem?_map, List.getElem?_eq_getElem hdivT']
    have hmodB : (k - 1) % B < B := Nat.mod_lt _ hB
    simp only [Option.map_some', Option.some_bind]
    rw [List.getElem?_map, hld, List.getElem?_range hmodB]
    simp only [Option.map_some']
    congr 1
    rw [slicePlane, List.getD_eq_getElem?_getD, List.getElem?_eq_getElem hdivT']
    rfl

/-- C2 witness: on the concrete `(2, 1, 1, 2)` array `exArr`, the raster has
`2 * 2 = 4` file bands and 1-based file band `3` holds the plane for time
`(3 - 1) / 2 = 1` and band `(3 - 1) % 2 = 0`. -/
theorem c2_amended_witness :
    (writePlanes exArr).length = 2 * 2 ∧
    (writePlanes exArr)[3 - 1]? = some (slicePlane exArr ((3 - 1) / 2) ((3 - 1) % 2)) :=
  c2_amended exArr 2 1 1 2 3 (by decide) (by decide) (by decide) (by decide) (by decide)

/-- C8: when the two corner re-projections succeed and the source
resolutions are non-zero, the importer window is exactly
`((int((ul_y - top) / y_res), int((lr_y - top) / y_res)),
(int((ul_x - left) / x_res), int((lr_x - left) / x_res)))` with the signed
resolutions taken from the source transform, and the `int()` conversion is
truncation to an integer (`|int(q)| ≤ |q| < |int(q)| + 1`). -/
theorem c8_window_formula (projE : ℚ × ℚ → Except String (ℚ × ℚ)) (src : SrcRaster)
    (bbox : BBox) (ul lr : ℚ × ℚ)
    (hul : projE (bbox.minX, bbox.maxY) = .ok ul)
    (hlr : projE (bbox.maxX, bbox.minY) = .ok lr)
    (_hxr : src.xRes ≠ 0) (_hyr : src.yRes ≠ 0) :
    getWindowE projE src bbox =
      .ok ((pythonInt ((ul.2 - src.top) / src.yRes),
            pythonInt ((lr.2 - src.top) / src.yRes)),
           (pythonInt ((ul.1 - src.left) / src.xRes),
            pythonInt ((lr.1 - src.left) / src.xRes))) ∧
    ∀ q : ℚ, |(pythonInt q : ℚ)| ≤ |q| ∧ |q| < |(pythonInt q : ℚ)| + 1 := by
  constructor
  · simp [getWindowE, hul, hlr, windowOf]
  · intro q
    unfold pythonInt
    by_cases hq : 0 ≤ q
    · rw [if_pos hq]
      have h1 : (0 : ℚ) ≤ (⌊q⌋ : ℚ) := by exact_mod_cast Int.floor_nonneg.mpr hq
      rw [abs_of_nonneg hq, abs_of_nonneg h1]
      exact ⟨Int.floor_le q, Int.lt_floor_add_one q⟩
    · rw [if_neg hq]
      push_neg at hq
      have hql : q ≤ 0 := le_of_lt hq
      have hc : ⌈q⌉ ≤ 0 := Int.ceil_le.mpr (by exact_mod_cast hql)
      have hc' : ((⌈q⌉ : ℤ) : ℚ) ≤ 0 := by exact_mod_cast hc
      rw [abs_of_nonpos hql, abs_of_nonpos hc']
      constructor
      · exact neg_le_neg (Int.le_ceil q)
      · have := Int.ceil_lt_add_one q
        linarith

/-- C8 witness: identity projection, source origin `(0, 10)` with
resolutions `(1, -1)`, bbox `[0, 2] × [0, 3]`: the window formulas are
realised at concrete values. -/
theorem c8_window_formula_witness :
    getWindowE projId srcEg bboxEg =
      .ok ((pythonInt ((3 - 10) / (-1)), pythonInt ((0 - 10) / (-1))),
           (pythonInt ((0 - 0) / 1), pythonInt ((2 - 0) / 1))) :=
  (c8_window_formula projId srcEg bboxEg (0, 3) (2, 0) rfl rfl
    (by decide) (by decide)).1

/-- Concrete evaluation of the importer window for the identity projection,
`srcEg` and `bboxEg`. -/
theorem getWindowE_projId_srcEg :
    getWindowE projId srcEg bboxEg = .ok ((7, 10), (0, 2)) := by
  show Except.ok (windowOf srcEg (bboxEg.minX, bboxEg.maxY) (bboxEg.maxX, bboxEg.minY)) = _
  unfold windowOf pythonInt
  norm_num [srcEg, bboxEg]

/-- If the read of `l[i]` (after `i` successful reads) fails, the whole
band-reading loop fails with that error. -/
theorem readSeq_error_at (readBand : ℕ → Except String Unit) (e : String) :
    ∀ (l : List ℕ) (i : ℕ) (hi : i < l.length),
      (∀ j (hj : j < l.length), j < i → readBand (l.get ⟨j, hj⟩ + 1) = .ok ()) →
      readBand (l.get ⟨i, hi⟩ + 1) = .error e → readSeq readBand l = .error e := by
  intro l
  induction l with
  | nil =>
    intro i hi
    exact absurd hi (by simp)
  | cons x rest ih =>
    intro i hi hok he
    cases i with
    | zero =>
      have he' : readBand (x + 1) = .error e := he
      simp [readSeq, he']
    | succ i' =>
      have hx : readBand (x + 1) = .ok () :=
        hok 0 (by simp) (Nat.succ_pos _)
      simp only [readSeq, hx]
      refine ih i' (by simpa using hi) ?_ ?_
      · intro j hj hji
        exact hok (j + 1) (by simpa using hj) (Nat.succ_lt_succ hji)
      · exact he

/-- C9: whenever opening the source raster fails, or a corner re-projection
fails (while deriving width/height or while computing the read window), or
a band read fails, the importer propagates that exact error; the new
attribute is attached only in the success case, so a failing call leaves
the tile unmodified. -/
theorem c9_import_error_propagation
    (openSrc : Except String SrcRaster) (projE : ℚ × ℚ → Except String (ℚ × ℚ))
    (readBand : ℕ → Except String Unit) (maskName : String) (patch : ImpPatch)
    (bbox : BBox) (width height : Option ℤ) :
    (∀ e, openSrc = .error e →
      executeImport openSrc projE readBand maskName patch bbox width height = .error e) ∧
    (∀ src e, openSrc = .ok src →
      resolveWH projE src bbox width height = .error e →
      executeImport openSrc projE readBand maskName patch bbox width height = .error e) ∧
    (∀ src w h e, openSrc = .ok src →
      resolveWH projE src bbox width height = .ok (w, h) → ¬ (w < 0 ∨ h < 0) →
      getWindowE projE src bbox = .error e →
      executeImport openSrc projE readBand maskName patch bbox width height = .error e) ∧
    (∀ src w h win i e, openSrc = .ok src →
      resolveWH projE src bbox width height = .ok (w, h) → ¬ (w < 0 ∨ h < 0) →
      getWindowE projE src bbox = .ok win →
      i < src.count → (∀ j, j < i → readBand (j + 1) = .ok ()) →
      readBand (i + 1) = .error e →
      executeImport openSrc projE readBand maskName patch bbox width height = .error e) := by
  refine ⟨?_, ?_, ?_, ?_⟩
  · intro e he
    rw [he]
    rfl
  · intro src e hsrc hwh
    rw [hsrc]
    simp only [executeImport, hwh]
  · intro src w h e hsrc hwh hneg hwin
    rw [hsrc]
    simp only [executeImport, hwh, if_neg hneg, hwin]
  · intro src w h win i e hsrc hwh hneg hwin hi hok he
    rw [hsrc]
    have hrs : readSeq readBand (List.range src.count) = .error e := by
      refine readSeq_error_at readBand e (List.range src.count) i
        (by simpa using hi) ?_ ?_
      · intro j hj hji
        have hg : (List.range src.count).get ⟨j, hj⟩ = j := by simp
        rw [hg]
        exact hok j hji
      · have hg : (List.range src.count).get ⟨i, by simpa using hi⟩ = i := by simp
        rw [hg]
        exact he
    simp only [executeImport, hwh, if_neg hneg, hwin, hrs]

/-- C9 witness: each failure mode at a concrete configuration — open
failure, projection failure during width/height derivation, projection
failure during window computation (width/height supplied), and a failing
first band read — propagates its exact error. -/
theorem c9_import_error_propagation_witness :
    executeImport (.error "io-error") projId readOk "m" ⟨[]⟩ bboxEg none none
      = .error "io-error" ∧
    executeImport (.ok srcEg) projFail readOk "m" ⟨[]⟩ bboxEg none none
      = .error "proj-error" ∧
    executeImport (.ok srcEg) projFail readOk "m" ⟨[]⟩ bboxEg (some 2) (some 3)
      = .error "proj-error" ∧
    executeImport (.ok srcEg) projId readFail "m" ⟨[]⟩ bboxEg (some 2) (some 3)
      = .error "read-error" :=
  ⟨(c9_import_error_propagation (.error "io-error") projId readOk "m" ⟨[]⟩ bboxEg
      none none).1 "io-error" rfl,
   (c9_import_error_propagation (.ok srcEg) projFail readOk "m" ⟨[]⟩ bboxEg
      none none).2.1 srcEg "proj-error" rfl rfl,
   (c9_import_error_propagation (.ok srcEg) projFail readOk "m" ⟨[]⟩ bboxEg
      (some 2) (some 3)).2.2.1 srcEg 2 3 "proj-error" rfl rfl (by decide) rfl,
   (c9_import_error_propagation (.ok srcEg) projId readFail "m" ⟨[]⟩ bboxEg
      (some 2) (some 3)).2.2.2 srcEg 2 3 ((7, 10), (0, 2)) 0 "read-error" rfl rfl
      (by decide) getWindowE_projId_srcEg (by decide)
      (fun j hj => absurd hj (Nat.not_lt_zero j)) rfl⟩

/-- C10: when either the supplied `width` or `height` is missing or falsy,
both are replaced by the window-derived values
`(right - left, bottom - top)` — even when the other parameter was
explicitly given and non-zero. -/
theorem c10_width_height_fallback (projE : ℚ × ℚ → Except String (ℚ × ℚ))
    (src : SrcRaster) (bbox : BBox) (width height : Option ℤ) (t b l r : ℤ)
    (hwin : getWindowE projE src bbox = .ok ((t, b), (l, r)))
    (hfalsy : pyTruthyInt width = false ∨ pyTruthyInt height = false) :
    resolveWH projE src bbox width height = .ok (r - l, b - t) := by
  have hcond : (pyTruthyInt width && pyTruthyInt height) = false := by
    cases hfalsy with
    | inl hw => simp [hw]
    | inr hh => simp [hh]
  simp only [resolveWH, hcond, Bool.false_eq_true, if_false, getWidthHeightE, hwin]

/-- C10 witness: with `width = 7` supplied and non-zero but `height`
omitted, both are replaced by the window-derived pair
`(right - left, bottom - top) = (2 - 0, 10 - 7)`. -/
theorem c10_width_height_fallback_witness :
    resolveWH projId srcEg bboxEg (some 7) none = .ok (2 - 0, 10 - 7) :=
  c10_width_height_fallback projId srcEg bboxEg (some 7) none 7 10 0 2
    getWindowE_projId_srcEg (Or.inr rfl)

end LocalIO
